import Mathlib

/-!
Verification of the `one_run_laptop_pipeline.py` extraction pipeline
(repository `laptop-cms-pipeline`) against its natural-language
specification.

The Python module is shallowly embedded below.  Conventions:

* Python dicts carrying row data become association lists
  (`Obj = List (String × JVal)`), looked up with `alookup` (first match,
  as for a Python dict whose keys are unique).
* JSON values that can appear in a row are modelled by `JVal`
  (strings, numbers, `null`); Python's `None` is `JVal.vnull`.
* File-system caches become association lists held in a `RunState`;
  a cache file that exists but holds unparsable JSON is modelled as an
  entry whose payload is `none`.
* The browser, the HTML parser (BeautifulSoup) and the model endpoint
  are capability parameters of the environment `Env`, exactly as the
  spec treats them ("capability providers" / "black-box service").
  A parsed HTML page is an `HtmlDoc`: title, meta description, table
  rows (lists of cell texts) and the visible text of the page after
  the script/style/… tags have been stripped.
* Byte sizes of cache files are modelled as character counts of their
  contents.
-/

/-- The NA sentinel `"#NA"` (source line 37). -/
def NA : String := "#NA"

/-- Python `str.strip()` on a character list: drop whitespace at both ends. -/
def stripChars (l : List Char) : List Char :=
  ((l.dropWhile Char.isWhitespace).reverse.dropWhile Char.isWhitespace).reverse

/-- Python `str.strip()`. (Defined over the character data so that it
reduces inside the kernel, unlike `String.trim`.) -/
def pystrip (s : String) : String := String.mk (stripChars s.data)

/-- JSON-ish values that can occur in a row dict. -/
inductive JVal where
  | vstr : String → JVal
  | vnum : Int → JVal
  | vnull : JVal
deriving DecidableEq, Repr

/-- A Python dict holding row data, as an association list. -/
abbrev Obj := List (String × JVal)

/-- First-match association-list lookup (Python `dict.get`). -/
def alookup {β : Type} : List (String × β) → String → Option β
  | [], _ => none
  | (k, v) :: rest, key => if k = key then some v else alookup rest key

/-- The exact CSV headers, in order (source lines 46-58). -/
def HEADERS : List String := [
  "sku", "base_code", "attributes__lulu_ean", "attributes__keywords", "attributes__shipping_weight",
  "attributes__brand", "attributes__product_title", "attributes__bullet_point_1", "attributes__bullet_point_2",
  "attributes__bullet_point_3", "attributes__bullet_point_4", "attributes__bullet_point_5", "attributes__bullet_point_6",
  "attributes__product_description", "attributes__lulu_product_type", "attributes__model", "attributes__weight",
  "attributes__in_the_box", "attributes__product_dimensions", "attributes__display_type", "attributes__display_resolution",
  "attributes__ram", "attributes__processor", "attributes__wifi", "attributes__bluetooth", "attributes__battery_capacity",
  "attributes__battery_type", "attributes__audio", "attributes__part_number", "attributes__web_camera", "attributes__refresh_rate",
  "attributes__storage", "attributes__version", "attributes__graphics_card", "attributes__hdmi", "attributes__usb",
  "attributes__keyboard_touchpad", "attributes__accessories", "attributes__power", "attributes__model_year",
  "attributes__no_of_channels", "attributes__country_of_origin", "attributes__color", "attributes__other_information",
  "attributes__graphic_memory", "attributes__ethernet"]

/-- `normalize_to_headers` (source lines 122-129): for every header take
`row.get(h, NA)`; replace `None` and whitespace-blank strings by `NA`;
keep everything else unchanged. -/
def normalize_to_headers (row : Obj) : Obj :=
  HEADERS.map (fun h =>
    (h, match alookup row h with
        | none => JVal.vstr NA
        | some JVal.vnull => JVal.vstr NA
        | some (JVal.vstr s) => if pystrip s = "" then JVal.vstr NA else JVal.vstr s
        | some (JVal.vnum n) => JVal.vnum n))

/-- Assignment `row[key] = v` on a dict that already holds `key`
(all row dicts below hold exactly the keys of `HEADERS`). -/
def setField : Obj → String → JVal → Obj
  | [], _, _ => []
  | (k, w) :: rest, key, v =>
    (if k = key then (key, v) else (k, w)) :: setField rest key v

/-- Python `s or NA` for an (already stripped) string `s`. -/
def orNA (s : String) : String := if s = "" then NA else s

/-- An input record, i.e. the `input_row` dict built in `main`
(source lines 478-487) — the eight columns taken from `input.xlsx`. -/
structure InputRecord where
  sku : String
  ean : String
  shipping_weight : String
  color : String
  product_type : String
  url : String
  mm43 : String
  category : String
deriving DecidableEq, Repr

/-- The `.strip()` applied to every field when `input_row` is built
(source lines 478-487). -/
def stripRecord (ir : InputRecord) : InputRecord :=
  ⟨pystrip ir.sku, pystrip ir.ean, pystrip ir.shipping_weight, pystrip ir.color,
   pystrip ir.product_type, pystrip ir.url, pystrip ir.mm43, pystrip ir.category⟩

/-- `make_na_row` (source lines 430-442): every header mapped to `NA`,
then the identifier and the override fields copied from the input
record (blank override values stay `NA`). -/
def make_na_row (ir : InputRecord) : Obj :=
  let row := HEADERS.map (fun h => (h, JVal.vstr NA))
  let row := setField row "sku" (JVal.vstr ir.sku)
  let row := setField row "base_code" (JVal.vstr ir.sku)
  let row := setField row "attributes__lulu_ean" (JVal.vstr (orNA (pystrip ir.ean)))
  let row := setField row "attributes__shipping_weight" (JVal.vstr (orNA (pystrip ir.shipping_weight)))
  let row := setField row "attributes__color" (JVal.vstr (orNA (pystrip ir.color)))
  let row := setField row "attributes__lulu_product_type" (JVal.vstr (orNA (pystrip ir.product_type)))
  let row := setField row "attributes__version" (JVal.vstr (orNA (pystrip ir.mm43)))
  setField row "attributes__other_information" (JVal.vstr (orNA (pystrip ir.category)))

/-- The "enforce mappings" block of `main` (source lines 507-515 and
558-566, the two copies are identical): identifier and override fields
are overwritten from the input record; `attributes__other_information`
is taken from the record only when the normalized model value is `NA`. -/
def enforce_mappings (fr : Obj) (ir : InputRecord) : Obj :=
  let fr := setField fr "sku" (JVal.vstr ir.sku)
  let fr := setField fr "base_code" (JVal.vstr ir.sku)
  let fr := setField fr "attributes__lulu_ean" (JVal.vstr (orNA ir.ean))
  let fr := setField fr "attributes__shipping_weight" (JVal.vstr (orNA ir.shipping_weight))
  let fr := setField fr "attributes__color" (JVal.vstr (orNA ir.color))
  let fr := setField fr "attributes__lulu_product_type" (JVal.vstr (orNA ir.product_type))
  let fr := setField fr "attributes__version" (JVal.vstr (orNA ir.mm43))
  if alookup fr "attributes__other_information" = some (JVal.vstr NA) then
    setField fr "attributes__other_information" (JVal.vstr (orNA ir.category))
  else fr

/-- The row written for a (fresh or cached) model extraction `mr`:
`enforce_mappings` applied to `normalize_to_headers mr`
(source lines 505-517 and 556-568). -/
def extractionRow (mr : Obj) (ir : InputRecord) : Obj :=
  enforce_mappings (normalize_to_headers mr) ir


/-- Lower-casing (Python `str.lower()`), over the character data. -/
def lowerStr (s : String) : String := String.mk (s.data.map Char.toLower)

/-- Python `needle in hay` substring test, over character data. -/
def substrAt : List Char → List Char → Bool
  | needle, [] => needle.isEmpty
  | needle, c :: t => needle.isPrefixOf (c :: t) || substrAt needle t

/-- Python `needle in hay` on strings. -/
def isSubstr (needle hay : String) : Bool := substrAt needle.data hay.data

/-- `collapse_ws` (source lines 111-112): collapse every whitespace run
to a single space and strip the ends — i.e. split into words and join
with single spaces. -/
def wordsAcc : List Char → List Char → List (List Char)
  | [], acc => if acc.isEmpty then [] else [acc.reverse]
  | c :: cs, acc =>
    if c.isWhitespace then
      if acc.isEmpty then wordsAcc cs [] else acc.reverse :: wordsAcc cs []
    else wordsAcc cs (c :: acc)

/-- Join character-list words with single spaces. -/
def joinWithSpace : List (List Char) → List Char
  | [] => []
  | [w] => w
  | w :: ws => w ++ (' ' :: joinWithSpace ws)

/-- `collapse_ws` (source lines 111-112). -/
def collapse_ws (s : String) : String := String.mk (joinWithSpace (wordsAcc s.data []))

/-- A fetched page after parsing, the interface to the HTML parser
(BeautifulSoup is a capability provider): title and meta description
when present, the cell texts of every table row (`tr` → `th`/`td`),
and the visible text left after `script`/`style`/`noscript`/`svg`/
`canvas`/`iframe` are stripped. -/
structure HtmlDoc where
  title : Option String
  metaDesc : Option String
  tableRows : List (List String)
  visibleText : String

/-- An `HtmlDoc` with nothing in it. -/
def emptyDoc : HtmlDoc := ⟨none, none, [], ""⟩

/-- The strong block phrases (source lines 161-168), in source order. -/
def strongPhrases : List String :=
  ["enter the characters you see", "verify you are a human", "robot check",
   "not a robot", "unusual traffic", "automated access"]

/-- The words that make "captcha" count as a block (source line 172). -/
def captchaCompanions : List String := ["verify", "robot", "human", "unusual traffic"]

/-- `looks_blocked_visible_text` (source lines 155-175): lower-case the
visible text; blocked iff a strong phrase occurs, or "captcha" occurs
together with one of its companion words. -/
def looks_blocked_visible_text (doc : HtmlDoc) : Bool :=
  let text := lowerStr doc.visibleText
  strongPhrases.any (fun s => isSubstr s text) ||
    (isSubstr "captcha" text && captchaCompanions.any (fun s => isSubstr s text))

/-- The compacted payload sent to the model (source lines 257-262). -/
structure Payload where
  page_title : String
  meta_description : String
  tables_text : String
  visible_text : String
deriving DecidableEq, Repr

/-- Python `"\n".join`. -/
def joinNl : List String → String
  | [] => ""
  | [x] => x
  | x :: xs => x ++ "\n" ++ joinNl xs

/-- The dedup-keeping-first loop of `html_to_compact_payload`
(source lines 242-247): keep a line iff it was not seen before. -/
def dedupAux : List String → List String → List String
  | [], _ => []
  | x :: xs, seen => if x ∈ seen then dedupAux xs seen else x :: dedupAux xs (x :: seen)

/-- Deduplicate by exact match, keeping first occurrences in order. -/
def dedupKeepFirst (l : List String) : List String := dedupAux l []

/-- Python `s[:n]` (take the first `n` characters). -/
def takeChars (s : String) (n : Nat) : String := String.mk (s.data.take n)

/-- Python `s[-k:]`: the last `k` characters — the whole string when `k = 0`. -/
def lastChars (s : String) (k : Nat) : String :=
  if k = 0 then s else String.mk (s.data.drop (s.data.length - k))

/-- `html_to_compact_payload` (source lines 223-262): title and meta
description collapsed; table rows with at least two (collapsed) cells
and non-empty key ≤ 70 chars and non-empty value ≤ 220 chars become
`"k: v"` lines, deduplicated, capped at 140, joined by newlines; the
collapsed visible text is head/tail-trimmed to the character budget;
each component falls back to `NA` when empty. -/
def html_to_compact_payload (doc : HtmlDoc) (max_visible_chars : Nat) : Payload :=
  let title := match doc.title with
    | some t => collapse_ws t
    | none => ""
  let meta_desc := match doc.metaDesc with
    | some m => collapse_ws m
    | none => ""
  let table_lines := doc.tableRows.filterMap (fun cells =>
    match cells.map collapse_ws with
    | k :: v :: _ =>
      if k ≠ "" ∧ v ≠ "" ∧ k.length ≤ 70 ∧ v.length ≤ 220
      then some (k ++ ": " ++ v) else none
    | _ => none)
  let tables := dedupKeepFirst table_lines
  let tables_text := if tables = [] then NA else joinNl (tables.take 140)
  let text0 := collapse_ws doc.visibleText
  let text := if max_visible_chars < text0.length
    then takeChars text0 (3 * max_visible_chars / 4) ++ " ... " ++ lastChars text0 (max_visible_chars / 4)
    else text0
  ⟨if title = "" then NA else title,
   if meta_desc = "" then NA else meta_desc,
   tables_text,
   if text = "" then NA else text⟩

/-- One HTTP response of the model endpoint: rate-limited (429),
payload too large (413), another non-success status, or a 200 whose
body either contains a parsable JSON object or not. -/
inductive GroqResp where
  | r429 : GroqResp
  | r413 : GroqResp
  | rerr : GroqResp
  | r200 : Option Obj → GroqResp
deriving DecidableEq, Repr

/-- How `call_groq_with_retries` can fail: an HTTPError carrying 413,
an HTTPError with another status, no parsable JSON in the body
(`ValueError` / `json.loads` error), or the retry ceiling exhausted
(`RuntimeError`). -/
inductive GroqErr where
  | httpError413 : GroqErr
  | httpErrorOther : GroqErr
  | noJson : GroqErr
  | maxRetries : GroqErr
deriving DecidableEq, Repr

/-- `MAX_GROQ_RETRIES` (source line 90). -/
def MAX_GROQ_RETRIES : Nat := 6

/-- The retry loop of `call_groq_with_retries` (source lines 313-335),
with `fuel` attempts left; the endpoint's reply to attempt `a` is
`resp a` (attempts are numbered from 1). 429 → continue with the next
attempt; 413 and other non-success statuses raise; a 200 body is
parsed, yielding the object or a no-JSON error; running out of
attempts raises the max-retries error. -/
def callGroqAux (resp : Nat → GroqResp) : Nat → Except GroqErr Obj
  | 0 => Except.error GroqErr.maxRetries
  | Nat.succ fuel =>
    match resp (MAX_GROQ_RETRIES - fuel) with
    | GroqResp.r429 => callGroqAux resp fuel
    | GroqResp.r413 => Except.error GroqErr.httpError413
    | GroqResp.rerr => Except.error GroqErr.httpErrorOther
    | GroqResp.r200 none => Except.error GroqErr.noJson
    | GroqResp.r200 (some o) => Except.ok o

/-- `call_groq_with_retries` (source lines 299-335). -/
def call_groq_with_retries (resp : Nat → GroqResp) : Except GroqErr Obj :=
  callGroqAux resp MAX_GROQ_RETRIES

/-- `BACKOFF_BASE` (source line 91), as a rational. -/
def BACKOFF_BASE : ℚ := 2

/-- The backoff delay slept after a 429 on attempt `attempt`
(source line 318): `BACKOFF_BASE ** (attempt - 1) + jitter`, where the
jitter is drawn from `BACKOFF_JITTER = (0.2, 0.8)`. -/
def backoff_delay (attempt : Nat) (jitter : ℚ) : ℚ :=
  BACKOFF_BASE ^ (attempt - 1) + jitter

deriving instance DecidableEq for Except


/-- `SKIP_HTML_IF_EXISTS_OVER_BYTES` (source line 81). -/
def SKIP_HTML_IF_EXISTS_OVER_BYTES : Nat := 50000

/-- The mutable file-system state of a run: the extraction cache
(`groq_cache/{sku}.json`, a present file mapping to its parse result,
`none` when the JSON is corrupt) and the HTML cache
(`clean_html/{sku}.html` contents). -/
structure RunState where
  groqCache : List (String × Option Obj)
  htmlCache : List (String × String)
deriving DecidableEq, Repr

/-- The capabilities of a run. `done_skus` is the Resume Index;
`fetch sku url` is the outcome of the 3-attempt live browser scrape
(success flag and the HTML persisted for the SKU); `parse` is the HTML
parser; `groqResps sku i a` is the endpoint's reply to attempt `a` of
the `i`-th `call_groq_with_retries` invocation for `sku` (the `i = 1`
invocation only happens on the 413 shrink-and-retry path). -/
structure Env where
  done_skus : List String
  fetch : String → String → Bool × String
  parse : String → HtmlDoc
  groqResps : String → Nat → Nat → GroqResp

/-- `read_cached_groq_json` (source lines 414-421): `none` when the
file is absent or its content does not parse as JSON. -/
def read_cached_groq_json (st : RunState) (sku : String) : Option Obj :=
  match alookup st.groqCache sku with
  | some parsed => parsed
  | none => none

/-- `write_cached_groq_json` (source lines 423-425). -/
def write_cached_groq_json (st : RunState) (sku : String) (data : Obj) : RunState :=
  ⟨(sku, some data) :: st.groqCache, st.htmlCache⟩

/-- `read_cached_html_if_ok` (source lines 340-348): the cached HTML,
but only when the file exists and its size meets the threshold. -/
def read_cached_html_if_ok (st : RunState) (sku : String) : Option String :=
  match alookup st.htmlCache sku with
  | some content =>
    if SKIP_HTML_IF_EXISTS_OVER_BYTES ≤ content.length then some content else none
  | none => none

/-- The live-scrape part of `scrape_html` (source lines 357-406): drive
the browser (abstracted by `env.fetch`) and persist the obtained HTML
under the SKU.  Result: `((ok, html), networkFetched, new state)`. -/
def live_fetch (env : Env) (st : RunState) (sku url : String) :
    (Bool × String) × Bool × RunState :=
  let r := env.fetch sku url
  ((r.1, r.2), true, ⟨st.groqCache, (sku, r.2) :: st.htmlCache⟩)

/-- `scrape_html` (source lines 350-406): return the cached HTML when
`read_cached_html_if_ok` yields a non-empty string, otherwise scrape
live.  The middle component records whether a network fetch happened. -/
def scrape_html (env : Env) (st : RunState) (sku url : String) :
    (Bool × String) × Bool × RunState :=
  match read_cached_html_if_ok st sku with
  | some cached => if cached ≠ "" then ((true, cached), false, st) else live_fetch env st sku url
  | none => live_fetch env st sku url

/-- What happened while processing one input record: the row written
for it (`none` when the record was skipped by the Resume Index), and
whether the extraction cache was consulted, a live network fetch was
attempted, and at least one model HTTP request was made. -/
structure StepResult where
  row : Option Obj
  cacheChecked : Bool
  networkFetch : Bool
  modelCalled : Bool
deriving DecidableEq, Repr

/-- The fetch-and-extract tail of the per-record loop (source lines
521-575), entered after the extraction cache yielded nothing: scrape
(with HTML cache), emit an NA row on scrape failure or empty HTML or a
blocked page; otherwise compact, call the model (with one 413
shrink-and-retry), cache the extraction and write the enforced row, or
an NA row when extraction failed.  `ir` is already stripped. -/
def fetchAndExtract (env : Env) (st : RunState) (ir : InputRecord) : StepResult × RunState :=
  let sres := scrape_html env st ir.sku ir.url
  let ok_scrape := sres.1.1
  let html := sres.1.2
  let net := sres.2.1
  let st1 := sres.2.2
  if ok_scrape = false ∨ html = "" then
    (⟨some (make_na_row ir), true, net, false⟩, st1)
  else if looks_blocked_visible_text (env.parse html) then
    (⟨some (make_na_row ir), true, net, false⟩, st1)
  else
    let _payload := html_to_compact_payload (env.parse html) 18000
    match call_groq_with_retries (env.groqResps ir.sku 0) with
    | Except.ok model_row =>
      (⟨some (extractionRow model_row ir), true, net, true⟩,
       write_cached_groq_json st1 ir.sku model_row)
    | Except.error GroqErr.httpError413 =>
      let _payload2 := html_to_compact_payload (env.parse html) 9000
      match call_groq_with_retries (env.groqResps ir.sku 1) with
      | Except.ok model_row =>
        (⟨some (extractionRow model_row ir), true, net, true⟩,
         write_cached_groq_json st1 ir.sku model_row)
      | Except.error _ => (⟨some (make_na_row ir), true, net, true⟩, st1)
    | Except.error _ => (⟨some (make_na_row ir), true, net, true⟩, st1)

/-- One iteration of the record loop of `main` (source lines 477-575):
strip the raw excel fields; a missing sku or url yields an NA row; a
SKU in the Resume Index is skipped without emitting anything; a
non-empty extraction-cache object yields the enforced row directly
(no scrape, no model call); otherwise fetch and extract. -/
def processRecord (env : Env) (st : RunState) (raw : InputRecord) : StepResult × RunState :=
  let ir := stripRecord raw
  if ir.sku = "" ∨ ir.url = "" then
    (⟨some (make_na_row ir), false, false, false⟩, st)
  else if ir.sku ∈ env.done_skus then
    (⟨none, false, false, false⟩, st)
  else
    match read_cached_groq_json st ir.sku with
    | some cg =>
      if cg = [] then fetchAndExtract env st ir
      else (⟨some (extractionRow cg ir), true, false, false⟩, st)
    | none => fetchAndExtract env st ir

/-- The whole record loop: the sequence of rows written to the output
CSV for the given input records, threading the cache state. -/
def runPipeline (env : Env) : RunState → List InputRecord → List Obj
  | _, [] => []
  | st, raw :: rest =>
    let pr := processRecord env st raw
    match pr.1.row with
    | some r => r :: runPipeline env pr.2 rest
    | none => runPipeline env pr.2 rest

/-- A record is skipped by the Resume Index iff its stripped sku and
url are non-empty and the sku is among the done SKUs (the sku/url
check at source lines 492-495 runs first). -/
def ResumeSkipped (env : Env) (ir : InputRecord) : Prop :=
  ir.sku ≠ "" ∧ ir.url ≠ "" ∧ ir.sku ∈ env.done_skus

instance (env : Env) (ir : InputRecord) : Decidable (ResumeSkipped env ir) := by
  unfold ResumeSkipped; infer_instance

/-- `load_done_skus_from_csv` (source lines 137-150), applied to the
cells of the `sku` column of a prior output CSV (`none` models a row
without a `sku` key): collect the stripped non-empty values. -/
def load_done_skus_from_csv (skuCells : List (Option String)) : List String :=
  skuCells.filterMap (fun c =>
    let sku := pystrip (c.getD "")
    if sku = "" then none else some sku)

/-- A prior output artifact: file name, modification time, sku column. -/
structure OutFile where
  name : String
  mtime : Nat
  skuCells : List (Option String)

/-- One step of the mtime maximum: keep the earlier candidate on ties
(Python `sorted` is stable, `reverse=True`). -/
def latestStep (best : Option OutFile) (f : OutFile) : Option OutFile :=
  match best with
  | none => some f
  | some b => if b.mtime < f.mtime then some f else some b

/-- `latest_output_csv` (source lines 131-135): among the output files
other than the one being created, the first (in listing order) with
maximal modification time. -/
def latest_output_csv (files : List OutFile) (current : String) : Option OutFile :=
  (files.filter (fun f => f.name ≠ current)).foldl latestStep none

/-- A minimal environment for concrete runs: a failing fetch, a parser
returning an empty page, a model endpoint that always errors. -/
def baseEnv (done : List String) : Env :=
  ⟨done, fun _ _ => (false, ""), fun _ => emptyDoc, fun _ _ _ => GroqResp.rerr⟩

/-- The empty file-system state. -/
def emptyState : RunState := ⟨[], []⟩

/-- A record with the given sku, url and ean, all other fields blank. -/
def mkRecord (sku url ean : String) : InputRecord := ⟨sku, ean, "", "", "", url, "", ""⟩


/-- The per-field value computed by `normalize_to_headers`. -/
def normVal : Option JVal → JVal
  | none => JVal.vstr NA
  | some JVal.vnull => JVal.vstr NA
  | some (JVal.vstr s) => if pystrip s = "" then JVal.vstr NA else JVal.vstr s
  | some (JVal.vnum n) => JVal.vnum n


/-- The eight fields that `make_na_row`/`enforce_mappings` assign. -/
def overrideKeys : List String :=
  ["sku", "base_code", "attributes__lulu_ean", "attributes__shipping_weight",
   "attributes__color", "attributes__lulu_product_type", "attributes__version",
   "attributes__other_information"]


/-! ### Remaining definitions used by the claim theorems -/

/-- C6's claimed algorithm for `tables_text`, formalised from the claim's
words: keep only exactly-two-cell rows, reject entries whose key exceeds
70 characters or whose value exceeds 220, deduplicate by exact match,
cap at 140 lines, join with newlines, `NA` when nothing survives. -/
def tables_text_claimed (rows : List (List String)) : String :=
  let lines := rows.filterMap (fun cells =>
    match cells.map collapse_ws with
    | [k, v] => if k.length ≤ 70 ∧ v.length ≤ 220 then some (k ++ ": " ++ v) else none
    | _ => none)
  let t := dedupKeepFirst lines
  if t = [] then NA else joinNl (t.take 140)

/-- The amended C6 algorithm: take the first two (collapsed) cells of any
row with at least two cells, reject empty keys or values and over-long
keys/values, deduplicate, cap at 140, join with newlines, `NA` when
nothing survives. -/
def tables_text_amended (rows : List (List String)) : String :=
  let lines := rows.filterMap (fun cells =>
    match (cells.map collapse_ws).take 2 with
    | [k, v] =>
      if k ≠ "" ∧ v ≠ "" ∧ k.length ≤ 70 ∧ v.length ≤ 220
      then some (k ++ ": " ++ v) else none
    | _ => none)
  let t := dedupKeepFirst lines
  if t = [] then NA else joinNl (t.take 140)

/-- C9's claimed NA condition on a source value: absent, `None`, or a
string blank after stripping. -/
def isNASource : Option JVal → Bool
  | none => true
  | some JVal.vnull => true
  | some (JVal.vstr s) => decide (pystrip s = "")
  | some (JVal.vnum _) => false

/-- A 50000-character HTML cache payload (meets the size threshold). -/
def bigHtml : String := String.mk (List.replicate 50000 'a')

/-- Environment for the C3 counterexample, part (a): live fetch
succeeds, pages parse to their own text, the model always errors. -/
def envC3a : Env :=
  ⟨[], fun _ _ => (true, "x"), fun s => ⟨none, none, [], s⟩, fun _ _ _ => GroqResp.rerr⟩

/-- State for the C3 counterexample, part (a): the extraction cache for
SKU `A` exists and parses to the empty object. -/
def stC3a : RunState := ⟨[("A", some [])], []⟩

/-- Environment for the C3 counterexample, part (b): every page parses
to a bot-check text. -/
def envC3b : Env :=
  ⟨[], fun _ _ => (false, ""), fun _ => ⟨none, none, [], "robot check"⟩, fun _ _ _ => GroqResp.rerr⟩

/-- State for the C3 counterexample, part (b): a big enough HTML cache
entry for SKU `B`, no extraction cache. -/
def stC3b : RunState := ⟨[], [("B", bigHtml)]⟩

/-- State with a non-empty extraction-cache object for SKU `A`. -/
def stC3w1 : RunState := ⟨[("A", some [("attributes__brand", JVal.vstr "Acme")])], []⟩

/-- State with only a big HTML cache entry for SKU `A`. -/
def stC3w2 : RunState := ⟨[], [("A", bigHtml)]⟩

/-- State whose extraction-cache file for SKU `A` is corrupt. -/
def corruptState : RunState := ⟨[("A", none)], []⟩

/-- A prior output artifact with one SKU, modified at time 5. -/
def outA : OutFile := ⟨"laptop_cms_template_1.csv", 5, [some "A"]⟩

/-- A prior output artifact with one SKU, modified at time 7. -/
def outB : OutFile := ⟨"laptop_cms_template_2.csv", 7, [some "B"]⟩


/-! ### Theorems -/

/-! ### Helper lemmas about association-list rows -/

theorem alookup_cons {β : Type} (k : String) (w : β) (rest : List (String × β)) (q : String) :
    alookup ((k, w) :: rest) q = if k = q then some w else alookup rest q := rfl

theorem setField_cons (k : String) (w : JVal) (rest : Obj) (key : String) (v : JVal) :
    setField ((k, w) :: rest) key v
      = (if k = key then (key, v) else (k, w)) :: setField rest key v := rfl

theorem alookup_setField_self (row : Obj) (key : String) (v : JVal) :
    alookup (setField row key v) key = (alookup row key).map (fun _ => v) := by
  induction row with
  | nil => rfl
  | cons p rest ih =>
    rcases p with ⟨k, w⟩
    rw [setField_cons, alookup_cons]
    by_cases hk : k = key
    · rw [if_pos hk, alookup_cons, if_pos rfl, if_pos hk]; rfl
    · rw [if_neg hk, alookup_cons, if_neg hk, if_neg hk, ih]

theorem alookup_setField_ne (row : Obj) (key q : String) (v : JVal) (h : q ≠ key) :
    alookup (setField row key v) q = alookup row q := by
  induction row with
  | nil => rfl
  | cons p rest ih =>
    rcases p with ⟨k, w⟩
    rw [setField_cons, alookup_cons]
    by_cases hk : k = key
    · rw [if_pos hk, alookup_cons, if_neg (fun hh => h hh.symm), hk,
        if_neg (fun hh => h hh.symm), ih]
    · rw [if_neg hk, alookup_cons]
      by_cases hq : k = q
      · rw [if_pos hq, if_pos hq]
      · rw [if_neg hq, if_neg hq, ih]

theorem keys_setField (row : Obj) (key : String) (v : JVal) :
    (setField row key v).map Prod.fst = row.map Prod.fst := by
  induction row with
  | nil => rfl
  | cons p rest ih =>
    rcases p with ⟨k, w⟩
    rw [setField_cons, List.map_cons, List.map_cons, ih]
    by_cases hk : k = key
    · rw [if_pos hk, hk]
    · rw [if_neg hk]

theorem alookup_map_keys (l : List String) (f : String → JVal) (q : String) (h : q ∈ l) :
    alookup (l.map (fun x => (x, f x))) q = some (f q) := by
  induction l with
  | nil => cases h
  | cons a t ih =>
    rw [List.map_cons, alookup_cons]
    by_cases ha : a = q
    · rw [if_pos ha, ha]
    · have : q ∈ t := by
        rcases List.mem_cons.mp h with h1 | h1
        · exact absurd h1.symm ha
        · exact h1
      rw [if_neg ha, ih this]

theorem normalize_eq_map (row : Obj) :
    normalize_to_headers row = HEADERS.map (fun h => (h, normVal (alookup row h))) := rfl

theorem keys_normalize (row : Obj) :
    (normalize_to_headers row).map Prod.fst = HEADERS := by
  simp [normalize_eq_map, List.map_map, Function.comp_def]

theorem alookup_normalize (row : Obj) (h : String) (hmem : h ∈ HEADERS) :
    alookup (normalize_to_headers row) h = some (normVal (alookup row h)) := by
  rw [normalize_eq_map]
  exact alookup_map_keys HEADERS (fun x => normVal (alookup row x)) h hmem

theorem keys_enforce (fr : Obj) (ir : InputRecord) :
    (enforce_mappings fr ir).map Prod.fst = fr.map Prod.fst := by
  simp only [enforce_mappings]
  split <;> simp [keys_setField]

theorem keys_extractionRow (mr : Obj) (ir : InputRecord) :
    (extractionRow mr ir).map Prod.fst = HEADERS := by
  unfold extractionRow
  rw [keys_enforce, keys_normalize]

theorem keys_make_na_row (ir : InputRecord) :
    (make_na_row ir).map Prod.fst = HEADERS := by
  simp only [make_na_row]
  simp [keys_setField, List.map_map, Function.comp_def]

/-! ### Field values of `enforce_mappings` and `make_na_row` -/

theorem enforce_sku (fr : Obj) (ir : InputRecord) :
    alookup (enforce_mappings fr ir) "sku"
      = (alookup fr "sku").map (fun _ => JVal.vstr ir.sku) := by
  simp only [enforce_mappings]
  split <;> simp [alookup_setField_ne, alookup_setField_self]

theorem enforce_base_code (fr : Obj) (ir : InputRecord) :
    alookup (enforce_mappings fr ir) "base_code"
      = (alookup fr "base_code").map (fun _ => JVal.vstr ir.sku) := by
  simp only [enforce_mappings]
  split <;> simp [alookup_setField_ne, alookup_setField_self]

theorem enforce_ean (fr : Obj) (ir : InputRecord) :
    alookup (enforce_mappings fr ir) "attributes__lulu_ean"
      = (alookup fr "attributes__lulu_ean").map (fun _ => JVal.vstr (orNA ir.ean)) := by
  simp only [enforce_mappings]
  split <;> simp [alookup_setField_ne, alookup_setField_self]

theorem enforce_shipping_weight (fr : Obj) (ir : InputRecord) :
    alookup (enforce_mappings fr ir) "attributes__shipping_weight"
      = (alookup fr "attributes__shipping_weight").map (fun _ => JVal.vstr (orNA ir.shipping_weight)) := by
  simp only [enforce_mappings]
  split <;> simp [alookup_setField_ne, alookup_setField_self]

theorem enforce_color (fr : Obj) (ir : InputRecord) :
    alookup (enforce_mappings fr ir) "attributes__color"
      = (alookup fr "attributes__color").map (fun _ => JVal.vstr (orNA ir.color)) := by
  simp only [enforce_mappings]
  split <;> simp [alookup_setField_ne, alookup_setField_self]

theorem enforce_product_type (fr : Obj) (ir : InputRecord) :
    alookup (enforce_mappings fr ir) "attributes__lulu_product_type"
      = (alookup fr "attributes__lulu_product_type").map (fun _ => JVal.vstr (orNA ir.product_type)) := by
  simp only [enforce_mappings]
  split <;> simp [alookup_setField_ne, alookup_setField_self]

theorem enforce_version (fr : Obj) (ir : InputRecord) :
    alookup (enforce_mappings fr ir) "attributes__version"
      = (alookup fr "attributes__version").map (fun _ => JVal.vstr (orNA ir.mm43)) := by
  simp only [enforce_mappings]
  split <;> simp [alookup_setField_ne, alookup_setField_self]

theorem enforce_other_info (fr : Obj) (ir : InputRecord) :
    alookup (enforce_mappings fr ir) "attributes__other_information"
      = if alookup fr "attributes__other_information" = some (JVal.vstr NA)
        then (alookup fr "attributes__other_information").map (fun _ => JVal.vstr (orNA ir.category))
        else alookup fr "attributes__other_information" := by
  simp only [enforce_mappings]
  rw [alookup_setField_ne _ _ _ _ (by simp), alookup_setField_ne _ _ _ _ (by simp),
    alookup_setField_ne _ _ _ _ (by simp), alookup_setField_ne _ _ _ _ (by simp),
    alookup_setField_ne _ _ _ _ (by simp), alookup_setField_ne _ _ _ _ (by simp),
    alookup_setField_ne _ _ _ _ (by simp)]
  split
  · rw [alookup_setField_self]
    rw [alookup_setField_ne _ _ _ _ (by simp), alookup_setField_ne _ _ _ _ (by simp),
      alookup_setField_ne _ _ _ _ (by simp), alookup_setField_ne _ _ _ _ (by simp),
      alookup_setField_ne _ _ _ _ (by simp), alookup_setField_ne _ _ _ _ (by simp),
      alookup_setField_ne _ _ _ _ (by simp)]
  · rw [alookup_setField_ne _ _ _ _ (by simp), alookup_setField_ne _ _ _ _ (by simp),
      alookup_setField_ne _ _ _ _ (by simp), alookup_setField_ne _ _ _ _ (by simp),
      alookup_setField_ne _ _ _ _ (by simp), alookup_setField_ne _ _ _ _ (by simp),
      alookup_setField_ne _ _ _ _ (by simp)]

theorem extractionRow_sku (mr : Obj) (ir : InputRecord) :
    alookup (extractionRow mr ir) "sku" = some (JVal.vstr ir.sku) := by
  unfold extractionRow
  rw [enforce_sku, alookup_normalize _ _ (by decide)]; rfl

theorem extractionRow_base_code (mr : Obj) (ir : InputRecord) :
    alookup (extractionRow mr ir) "base_code" = some (JVal.vstr ir.sku) := by
  unfold extractionRow
  rw [enforce_base_code, alookup_normalize _ _ (by decide)]; rfl

theorem extractionRow_ean (mr : Obj) (ir : InputRecord) :
    alookup (extractionRow mr ir) "attributes__lulu_ean" = some (JVal.vstr (orNA ir.ean)) := by
  unfold extractionRow
  rw [enforce_ean, alookup_normalize _ _ (by decide)]; rfl

theorem extractionRow_shipping_weight (mr : Obj) (ir : InputRecord) :
    alookup (extractionRow mr ir) "attributes__shipping_weight"
      = some (JVal.vstr (orNA ir.shipping_weight)) := by
  unfold extractionRow
  rw [enforce_shipping_weight, alookup_normalize _ _ (by decide)]; rfl

theorem extractionRow_color (mr : Obj) (ir : InputRecord) :
    alookup (extractionRow mr ir) "attributes__color" = some (JVal.vstr (orNA ir.color)) := by
  unfold extractionRow
  rw [enforce_color, alookup_normalize _ _ (by decide)]; rfl

theorem extractionRow_product_type (mr : Obj) (ir : InputRecord) :
    alookup (extractionRow mr ir) "attributes__lulu_product_type"
      = some (JVal.vstr (orNA ir.product_type)) := by
  unfold extractionRow
  rw [enforce_product_type, alookup_normalize _ _ (by decide)]; rfl

theorem extractionRow_version (mr : Obj) (ir : InputRecord) :
    alookup (extractionRow mr ir) "attributes__version" = some (JVal.vstr (orNA ir.mm43)) := by
  unfold extractionRow
  rw [enforce_version, alookup_normalize _ _ (by decide)]; rfl

theorem extractionRow_other_info (mr : Obj) (ir : InputRecord) :
    alookup (extractionRow mr ir) "attributes__other_information"
      = if normVal (alookup mr "attributes__other_information") = JVal.vstr NA
        then some (JVal.vstr (orNA ir.category))
        else some (normVal (alookup mr "attributes__other_information")) := by
  unfold extractionRow
  rw [enforce_other_info, alookup_normalize _ _ (by decide)]
  by_cases h : normVal (alookup mr "attributes__other_information") = JVal.vstr NA
  · rw [if_pos (by rw [h]), if_pos h]; rfl
  · rw [if_neg (by simpa using h), if_neg h]

theorem na_row_sku (ir : InputRecord) :
    alookup (make_na_row ir) "sku" = some (JVal.vstr ir.sku) := by
  simp only [make_na_row]
  simp [alookup_setField_ne, alookup_setField_self]
  exact ⟨_, rfl⟩

theorem na_row_base_code (ir : InputRecord) :
    alookup (make_na_row ir) "base_code" = some (JVal.vstr ir.sku) := by
  simp only [make_na_row]
  simp [alookup_setField_ne, alookup_setField_self]
  exact ⟨_, rfl⟩

theorem na_row_ean (ir : InputRecord) :
    alookup (make_na_row ir) "attributes__lulu_ean"
      = some (JVal.vstr (orNA (pystrip ir.ean))) := by
  simp only [make_na_row]
  simp [alookup_setField_ne, alookup_setField_self]
  exact ⟨_, rfl⟩

theorem na_row_shipping_weight (ir : InputRecord) :
    alookup (make_na_row ir) "attributes__shipping_weight"
      = some (JVal.vstr (orNA (pystrip ir.shipping_weight))) := by
  simp only [make_na_row]
  simp [alookup_setField_ne, alookup_setField_self]
  exact ⟨_, rfl⟩

theorem na_row_color (ir : InputRecord) :
    alookup (make_na_row ir) "attributes__color"
      = some (JVal.vstr (orNA (pystrip ir.color))) := by
  simp only [make_na_row]
  simp [alookup_setField_ne, alookup_setField_self]
  exact ⟨_, rfl⟩

theorem na_row_product_type (ir : InputRecord) :
    alookup (make_na_row ir) "attributes__lulu_product_type"
      = some (JVal.vstr (orNA (pystrip ir.product_type))) := by
  simp only [make_na_row]
  simp [alookup_setField_ne, alookup_setField_self]
  exact ⟨_, rfl⟩

theorem na_row_version (ir : InputRecord) :
    alookup (make_na_row ir) "attributes__version"
      = some (JVal.vstr (orNA (pystrip ir.mm43))) := by
  simp only [make_na_row]
  simp [alookup_setField_ne, alookup_setField_self]
  exact ⟨_, rfl⟩

theorem na_row_other_info (ir : InputRecord) :
    alookup (make_na_row ir) "attributes__other_information"
      = some (JVal.vstr (orNA (pystrip ir.category))) := by
  simp only [make_na_row]
  simp [alookup_setField_ne, alookup_setField_self]
  exact ⟨_, rfl⟩

theorem na_row_plain (ir : InputRecord) (q : String)
    (hmem : q ∈ HEADERS) (hno : q ∉ overrideKeys) :
    alookup (make_na_row ir) q = some (JVal.vstr NA) := by
  simp only [overrideKeys, List.mem_cons, List.mem_singleton, not_or] at hno
  obtain ⟨h1, h2, h3, h4, h5, h6, h7, h8, -⟩ := hno
  simp only [make_na_row]
  rw [alookup_setField_ne _ _ _ _ h8, alookup_setField_ne _ _ _ _ h7,
    alookup_setField_ne _ _ _ _ h6, alookup_setField_ne _ _ _ _ h5,
    alookup_setField_ne _ _ _ _ h4, alookup_setField_ne _ _ _ _ h3,
    alookup_setField_ne _ _ _ _ h2, alookup_setField_ne _ _ _ _ h1,
    alookup_map_keys _ _ _ hmem]

/-! ### Shape of the rows emitted by the record loop -/

theorem fetchAndExtract_shape (env : Env) (st : RunState) (ir : InputRecord) :
    (fetchAndExtract env st ir).1.row = some (make_na_row ir) ∨
    ∃ mr, (fetchAndExtract env st ir).1.row = some (extractionRow mr ir) := by
  simp only [fetchAndExtract]
  split
  · left; rfl
  · split
    · left; rfl
    · split
      · right; exact ⟨_, rfl⟩
      · split
        · right; exact ⟨_, rfl⟩
        · left; rfl
      · left; rfl

theorem fetchAndExtract_isSome (env : Env) (st : RunState) (ir : InputRecord) :
    (fetchAndExtract env st ir).1.row.isSome = true := by
  rcases fetchAndExtract_shape env st ir with h | ⟨mr, h⟩ <;> simp [h]

theorem processRecord_shape (env : Env) (st : RunState) (raw : InputRecord) :
    (processRecord env st raw).1.row = none ∨
    (processRecord env st raw).1.row = some (make_na_row (stripRecord raw)) ∨
    ∃ mr, (processRecord env st raw).1.row = some (extractionRow mr (stripRecord raw)) := by
  simp only [processRecord]
  split
  · right; left; rfl
  · split
    · left; rfl
    · split
      · split
        · rcases fetchAndExtract_shape env st (stripRecord raw) with h | ⟨mr, h⟩
          · right; left; exact h
          · right; right; exact ⟨mr, h⟩
        · right; right; exact ⟨_, rfl⟩
      · rcases fetchAndExtract_shape env st (stripRecord raw) with h | ⟨mr, h⟩
        · right; left; exact h
        · right; right; exact ⟨mr, h⟩

theorem processRecord_isSome_iff (env : Env) (st : RunState) (raw : InputRecord) :
    (processRecord env st raw).1.row.isSome = true ↔ ¬ ResumeSkipped env (stripRecord raw) := by
  simp only [processRecord]
  by_cases h1 : (stripRecord raw).sku = "" ∨ (stripRecord raw).url = ""
  · rw [if_pos h1]
    have hns : ¬ ResumeSkipped env (stripRecord raw) := by
      intro hsk
      rcases h1 with h | h
      · exact hsk.1 h
      · exact hsk.2.1 h
    exact iff_of_true rfl hns
  · rw [if_neg h1]
    by_cases h2 : (stripRecord raw).sku ∈ env.done_skus
    · rw [if_pos h2]
      have hsk : ResumeSkipped env (stripRecord raw) :=
        ⟨fun h => h1 (Or.inl h), fun h => h1 (Or.inr h), h2⟩
      exact iff_of_false (by simp) (by simp [hsk])
    · rw [if_neg h2]
      have hns : ¬ ResumeSkipped env (stripRecord raw) := fun hsk => h2 hsk.2.2
      refine iff_of_true ?_ hns
      split
      · split
        · exact fetchAndExtract_isSome env st _
        · rfl
      · exact fetchAndExtract_isSome env st _

theorem processRecord_row_sku (env : Env) (st : RunState) (raw : InputRecord) (r : Obj)
    (h : (processRecord env st raw).1.row = some r) :
    alookup r "sku" = some (JVal.vstr (stripRecord raw).sku) := by
  rcases processRecord_shape env st raw with h0 | h0 | ⟨mr, h0⟩
  · rw [h0] at h; cases h
  · obtain rfl : make_na_row (stripRecord raw) = r := Option.some.inj (h0.symm.trans h)
    exact na_row_sku _
  · obtain rfl : extractionRow mr (stripRecord raw) = r := Option.some.inj (h0.symm.trans h)
    exact extractionRow_sku _ _

theorem processRecord_row_keys (env : Env) (st : RunState) (raw : InputRecord) (r : Obj)
    (h : (processRecord env st raw).1.row = some r) :
    r.map Prod.fst = HEADERS := by
  rcases processRecord_shape env st raw with h0 | h0 | ⟨mr, h0⟩
  · rw [h0] at h; cases h
  · obtain rfl : make_na_row (stripRecord raw) = r := Option.some.inj (h0.symm.trans h)
    exact keys_make_na_row _
  · obtain rfl : extractionRow mr (stripRecord raw) = r := Option.some.inj (h0.symm.trans h)
    exact keys_extractionRow _ _

theorem runPipeline_length (env : Env) :
    ∀ (st : RunState) (recs : List InputRecord),
      (runPipeline env st recs).length
        = (recs.filter (fun raw => ! decide (ResumeSkipped env (stripRecord raw)))).length := by
  intro st recs
  induction recs generalizing st with
  | nil => rfl
  | cons raw rest ih =>
    simp only [runPipeline, List.filter_cons]
    rcases hrow : (processRecord env st raw).1.row with _ | r
    · have hskip : ResumeSkipped env (stripRecord raw) := by
        by_contra hns
        have hs := (processRecord_isSome_iff env st raw).mpr hns
        rw [hrow] at hs
        cases hs
      simp [hrow, hskip, ih]
    · have hns : ¬ ResumeSkipped env (stripRecord raw) := by
        have hs := processRecord_isSome_iff env st raw
        rw [hrow] at hs
        exact hs.mp rfl
      simp [hrow, hns, ih]

theorem runPipeline_skus_sublist (env : Env) :
    ∀ (st : RunState) (recs : List InputRecord),
      ((runPipeline env st recs).map (fun r => alookup r "sku")).Sublist
        (recs.map (fun raw => some (JVal.vstr (stripRecord raw).sku))) := by
  intro st recs
  induction recs generalizing st with
  | nil => simp [runPipeline]
  | cons raw rest ih =>
    simp only [runPipeline, List.map_cons]
    rcases hrow : (processRecord env st raw).1.row with _ | r
    · simp only [hrow]
      exact (ih _).cons _
    · simp only [hrow, List.map_cons]
      rw [processRecord_row_sku env st raw r hrow]
      exact (ih _).cons₂ _

/-! ### Lemmas about the resume-index fold and the HTML-cache path -/

theorem latestStep_fold :
    ∀ (l : List OutFile) (acc : Option OutFile) (r : OutFile),
      l.foldl latestStep acc = some r →
      (acc = some r ∨ r ∈ l) ∧ (∀ g ∈ l, g.mtime ≤ r.mtime) ∧
        (∀ b, acc = some b → b.mtime ≤ r.mtime) := by
  intro l
  induction l with
  | nil =>
    intro acc r h
    simp only [List.foldl_nil] at h
    refine ⟨Or.inl h, by simp, ?_⟩
    intro b hb
    rw [h] at hb
    cases Option.some.inj hb
    exact le_rfl
  | cons a t ih =>
    intro acc r h
    simp only [List.foldl_cons] at h
    obtain ⟨hmem, hle, hacc⟩ := ih (latestStep acc a) r h
    refine ⟨?_, ?_, ?_⟩
    · rcases hmem with hm | hm
      · cases acc with
        | none =>
          simp only [latestStep] at hm
          cases Option.some.inj hm
          exact Or.inr (List.mem_cons_self _ _)
        | some b =>
          simp only [latestStep] at hm
          split_ifs at hm with hlt
          · cases Option.some.inj hm
            exact Or.inr (List.mem_cons_self _ _)
          · exact Or.inl hm
      · exact Or.inr (List.mem_cons_of_mem _ hm)
    · intro g hg
      rcases List.mem_cons.mp hg with rfl | hg'
      · cases acc with
        | none => exact hacc g (by simp [latestStep])
        | some b =>
          by_cases hlt : b.mtime < g.mtime
          · exact hacc g (by simp [latestStep, hlt])
          · exact le_trans (Nat.le_of_not_lt hlt) (hacc b (by simp [latestStep, hlt]))
      · exact hle g hg'
    · intro b hb
      cases acc with
      | none => cases hb
      | some b0 =>
        cases Option.some.inj hb
        by_cases hlt : b.mtime < a.mtime
        · exact le_trans (le_of_lt hlt) (hacc a (by simp [latestStep, hlt]))
        · exact hacc b (by simp [latestStep, hlt])

theorem fetchAndExtract_html_cache (env : Env) (st : RunState) (ir : InputRecord) (c : String)
    (hc : alookup st.htmlCache ir.sku = some c)
    (hlen : SKIP_HTML_IF_EXISTS_OVER_BYTES ≤ c.length)
    (hnb : looks_blocked_visible_text (env.parse c) = false) :
    (fetchAndExtract env st ir).1.networkFetch = false ∧
      (fetchAndExtract env st ir).1.modelCalled = true := by
  have hcne : c ≠ "" := by
    intro hce
    rw [hce] at hlen
    have h0 : ("" : String).length = 0 := rfl
    rw [h0] at hlen
    exact absurd hlen (by norm_num [SKIP_HTML_IF_EXISTS_OVER_BYTES])
  have hread : read_cached_html_if_ok st ir.sku = some c := by
    simp [read_cached_html_if_ok, hc, hlen]
  have hscr : scrape_html env st ir.sku ir.url = ((true, c), false, st) := by
    simp [scrape_html, hread, hcne]
  simp only [fetchAndExtract, hscr]
  rw [if_neg (by simp [hcne])]
  rw [if_neg (by simp [hnb])]
  split
  · exact ⟨rfl, rfl⟩
  · split
    · exact ⟨rfl, rfl⟩
    · exact ⟨rfl, rfl⟩
  · exact ⟨rfl, rfl⟩

/-! ### Claim theorems -/

/-- C1 (counterexample): the claim says every emitted row carries 45
schema fields, but the schema `HEADERS` of the source has 46 fields,
and a concretely processed record yields a row with 46 fields. -/
theorem C1_counterexample :
    HEADERS.length = 46 ∧ ¬ HEADERS.length = 45 ∧
    (processRecord (baseEnv []) emptyState (mkRecord "A" "u" "")).1.row.map
        (fun r => (r.map Prod.fst).length) = some 46 := by
  decide

/-- C1 (amended): the schema has 46 fields; every record that the
Resume Index does not skip yields exactly one row whose keys are
exactly `HEADERS` in order; a resume-skipped record yields no row; the
number of rows written in a run equals the number of unskipped input
records. -/
theorem C1_theorem :
    HEADERS.length = 46 ∧
    (∀ (env : Env) (st : RunState) (raw : InputRecord),
      ¬ ResumeSkipped env (stripRecord raw) →
        ∃ r, (processRecord env st raw).1.row = some r ∧ r.map Prod.fst = HEADERS) ∧
    (∀ (env : Env) (st : RunState) (raw : InputRecord),
      ResumeSkipped env (stripRecord raw) → (processRecord env st raw).1.row = none) ∧
    (∀ (env : Env) (st : RunState) (recs : List InputRecord),
      (runPipeline env st recs).length
        = (recs.filter (fun raw => ! decide (ResumeSkipped env (stripRecord raw)))).length) := by
  refine ⟨by decide, ?_, ?_, runPipeline_length⟩
  · intro env st raw hns
    have hs := (processRecord_isSome_iff env st raw).mpr hns
    rcases hrow : (processRecord env st raw).1.row with _ | r
    · rw [hrow] at hs; cases hs
    · exact ⟨r, rfl, processRecord_row_keys env st raw r hrow⟩
  · intro env st raw hsk
    rcases hrow : (processRecord env st raw).1.row with _ | r
    · rfl
    · exfalso
      have hs := processRecord_isSome_iff env st raw
      rw [hrow] at hs
      exact (hs.mp rfl) hsk

/-- C1 (witness): a concrete unskipped record yields a row with the
full header list. -/
theorem C1_witness :
    (processRecord (baseEnv []) emptyState (mkRecord "B" "u" "")).1.row.map
        (fun r => r.map Prod.fst) = some HEADERS := by
  obtain ⟨r, hr, hk⟩ :=
    C1_theorem.2.1 (baseEnv []) emptyState (mkRecord "B" "u" "") (by decide)
  rw [hr]
  simp [hk]

/-- C2: on every row built from a model extraction (the shape taken by
both the fresh-extraction path and the extraction-cache path), `sku`
and `base_code` equal the input record's (stripped) sku; the ean,
shipping-weight, color, product-type and version fields equal the
record's ean, shipping_weight, color, product_type and mm43 (or `NA`
when blank), whatever the model supplied; `attributes__other_information`
takes the record's category exactly when the normalized model value is
`NA`; and every row the loop emits is either an NA row or such an
extraction row. -/
theorem C2_theorem :
    ∀ (mr : Obj) (ir : InputRecord),
      alookup (extractionRow mr (stripRecord ir)) "sku"
          = some (JVal.vstr (stripRecord ir).sku) ∧
      alookup (extractionRow mr (stripRecord ir)) "base_code"
          = some (JVal.vstr (stripRecord ir).sku) ∧
      alookup (extractionRow mr (stripRecord ir)) "attributes__lulu_ean"
          = some (JVal.vstr (orNA (stripRecord ir).ean)) ∧
      alookup (extractionRow mr (stripRecord ir)) "attributes__shipping_weight"
          = some (JVal.vstr (orNA (stripRecord ir).shipping_weight)) ∧
      alookup (extractionRow mr (stripRecord ir)) "attributes__color"
          = some (JVal.vstr (orNA (stripRecord ir).color)) ∧
      alookup (extractionRow mr (stripRecord ir)) "attributes__lulu_product_type"
          = some (JVal.vstr (orNA (stripRecord ir).product_type)) ∧
      alookup (extractionRow mr (stripRecord ir)) "attributes__version"
          = some (JVal.vstr (orNA (stripRecord ir).mm43)) ∧
      (alookup (normalize_to_headers mr) "attributes__other_information"
            = some (JVal.vstr NA) →
        alookup (extractionRow mr (stripRecord ir)) "attributes__other_information"
            = some (JVal.vstr (orNA (stripRecord ir).category))) ∧
      (∀ v, alookup (normalize_to_headers mr) "attributes__other_information" = some v →
        v ≠ JVal.vstr NA →
        alookup (extractionRow mr (stripRecord ir)) "attributes__other_information" = some v) ∧
      (∀ (env : Env) (st : RunState) (raw : InputRecord) (r : Obj),
        (processRecord env st raw).1.row = some r →
        r = make_na_row (stripRecord raw) ∨ ∃ mr2, r = extractionRow mr2 (stripRecord raw)) := by
  intro mr ir
  have hnorm : alookup (normalize_to_headers mr) "attributes__other_information"
      = some (normVal (alookup mr "attributes__other_information")) :=
    alookup_normalize mr _ (by decide)
  refine ⟨extractionRow_sku mr _, extractionRow_base_code mr _, extractionRow_ean mr _,
    extractionRow_shipping_weight mr _, extractionRow_color mr _,
    extractionRow_product_type mr _, extractionRow_version mr _, ?_, ?_, ?_⟩
  · intro hna
    rw [hnorm] at hna
    have hv : normVal (alookup mr "attributes__other_information") = JVal.vstr NA :=
      Option.some.inj hna
    rw [extractionRow_other_info, if_pos hv]
  · intro v hv hne
    rw [hnorm] at hv
    have hv2 : normVal (alookup mr "attributes__other_information") = v :=
      Option.some.inj hv
    rw [extractionRow_other_info, if_neg (by rw [hv2]; exact hne), hv2]
  · intro env st raw r h
    rcases processRecord_shape env st raw with h0 | h0 | ⟨mr2, h0⟩
    · rw [h0] at h; cases h
    · exact Or.inl (Option.some.inj (h0.symm.trans h)).symm
    · exact Or.inr ⟨mr2, (Option.some.inj (h0.symm.trans h)).symm⟩

/-- C2 (witness): a concrete extraction row takes the record's ean, and
falls back to the record's (blank) category for other-information. -/
theorem C2_witness :
    alookup (extractionRow [("attributes__brand", JVal.vstr "Acme")]
        (stripRecord (mkRecord "L100" "u" "123"))) "attributes__lulu_ean"
      = some (JVal.vstr "123") ∧
    alookup (extractionRow [("attributes__brand", JVal.vstr "Acme")]
        (stripRecord (mkRecord "L100" "u" "123"))) "attributes__other_information"
      = some (JVal.vstr NA) := by
  have h := C2_theorem [("attributes__brand", JVal.vstr "Acme")] (mkRecord "L100" "u" "123")
  exact ⟨h.2.2.1, h.2.2.2.2.2.2.2.1 (by decide)⟩

/-- The size threshold forces a non-empty cached HTML string. -/
theorem ne_empty_of_len (c : String) (h : SKIP_HTML_IF_EXISTS_OVER_BYTES ≤ c.length) :
    c ≠ "" := by
  intro hce
  rw [hce] at h
  have h0 : ("" : String).length = 0 := rfl
  rw [h0] at h
  exact absurd h (by norm_num [SKIP_HTML_IF_EXISTS_OVER_BYTES])

/-- `bigHtml` has exactly 50000 characters. -/
theorem bigHtml_len : bigHtml.length = 50000 := by
  unfold bigHtml
  show (List.replicate 50000 'a').length = 50000
  exact List.length_replicate 50000 'a'

/-- When the extraction cache yields nothing usable (file absent,
corrupt, or the empty object), the record goes through fetch-and-extract. -/
theorem processRecord_cache_falsy (env : Env) (st : RunState) (raw : InputRecord)
    (h1 : (stripRecord raw).sku ≠ "") (h2 : (stripRecord raw).url ≠ "")
    (h3 : (stripRecord raw).sku ∉ env.done_skus)
    (hc : read_cached_groq_json st (stripRecord raw).sku = none ∨
          read_cached_groq_json st (stripRecord raw).sku = some []) :
    processRecord env st raw = fetchAndExtract env st (stripRecord raw) := by
  simp only [processRecord]
  rw [if_neg (fun hor => Or.elim hor h1 h2), if_neg h3]
  rcases hc with h | h
  · rw [h]
  · rw [h]; rfl

/-- A big-enough cached block page: no fetch, and no model call either. -/
theorem fetchAndExtract_html_cache_blocked (env : Env) (st : RunState) (ir : InputRecord)
    (c : String) (hc : alookup st.htmlCache ir.sku = some c)
    (hlen : SKIP_HTML_IF_EXISTS_OVER_BYTES ≤ c.length)
    (hb : looks_blocked_visible_text (env.parse c) = true) :
    (fetchAndExtract env st ir).1.modelCalled = false ∧
      (fetchAndExtract env st ir).1.networkFetch = false := by
  have hcne : c ≠ "" := ne_empty_of_len c hlen
  have hread : read_cached_html_if_ok st ir.sku = some c := by
    simp [read_cached_html_if_ok, hc, hlen]
  have hscr : scrape_html env st ir.sku ir.url = ((true, c), false, st) := by
    simp [scrape_html, hread, hcne]
  simp only [fetchAndExtract, hscr]
  rw [if_neg (by simp [hcne])]
  rw [if_pos (by simp [hb])]
  exact ⟨rfl, rfl⟩

/-- C3 (counterexample): (a) an extraction-cache entry that parses to
the empty object does not suppress the fetch (Python dict truthiness
treats `{}` as a miss), and (b) with only a large-enough HTML cache
entry whose content is a block page, the model call does not occur —
both contradicting the claim. -/
theorem C3_counterexample :
    (processRecord envC3a stC3a (mkRecord "A" "u" "")).1.networkFetch = true ∧
    (processRecord envC3b stC3b (mkRecord "B" "u" "")).1.modelCalled = false := by
  constructor
  · decide
  · have hstep := processRecord_cache_falsy envC3b stC3b (mkRecord "B" "u" "")
      (by decide) (by decide) (by decide) (Or.inl (by decide))
    rw [hstep]
    exact (fetchAndExtract_html_cache_blocked envC3b stC3b
      (stripRecord (mkRecord "B" "u" "")) bigHtml rfl
      (by rw [bigHtml_len]; decide) (by decide)).1

/-- C3 (amended): for a record with non-empty (stripped) sku and url
that is not resume-skipped, (a) an extraction-cache entry parsing to a
NON-EMPTY object suppresses fetch and model call and yields the row
built from the cached object, and (b) when the extraction cache yields
nothing usable but an HTML cache entry meets the 50000-byte threshold
and its content is NOT classified as blocked, no network fetch occurs
while the model call does occur. -/
theorem C3_theorem :
    ∀ (env : Env) (st : RunState) (raw : InputRecord),
      (stripRecord raw).sku ≠ "" → (stripRecord raw).url ≠ "" →
      (stripRecord raw).sku ∉ env.done_skus →
      ((∀ o, read_cached_groq_json st (stripRecord raw).sku = some o → o ≠ [] →
          processRecord env st raw
            = (⟨some (extractionRow o (stripRecord raw)), true, false, false⟩, st)) ∧
       (∀ c, (read_cached_groq_json st (stripRecord raw).sku = none ∨
              read_cached_groq_json st (stripRecord raw).sku = some []) →
          alookup st.htmlCache (stripRecord raw).sku = some c →
          SKIP_HTML_IF_EXISTS_OVER_BYTES ≤ c.length →
          looks_blocked_visible_text (env.parse c) = false →
          (processRecord env st raw).1.networkFetch = false ∧
            (processRecord env st raw).1.modelCalled = true)) := by
  intro env st raw h1 h2 h3
  constructor
  · intro o ho hone
    simp only [processRecord]
    rw [if_neg (fun hor => Or.elim hor h1 h2), if_neg h3]
    simp only [ho]
    rw [if_neg hone]
  · intro c hor hc hlen hnb
    rw [processRecord_cache_falsy env st raw h1 h2 h3 hor]
    exact fetchAndExtract_html_cache env st (stripRecord raw) c hc hlen hnb

/-- C3 (witness): a non-empty cached extraction yields the enforced row
without fetch or model call; a big, unblocked HTML cache entry yields a
model call without a network fetch. -/
theorem C3_witness :
    processRecord (baseEnv []) stC3w1 (mkRecord "A" "u" "")
      = (⟨some (extractionRow [("attributes__brand", JVal.vstr "Acme")]
            (stripRecord (mkRecord "A" "u" ""))), true, false, false⟩, stC3w1) ∧
    ((processRecord (baseEnv []) stC3w2 (mkRecord "A" "u" "")).1.networkFetch = false ∧
      (processRecord (baseEnv []) stC3w2 (mkRecord "A" "u" "")).1.modelCalled = true) := by
  constructor
  · exact (C3_theorem (baseEnv []) stC3w1 (mkRecord "A" "u" "")
      (by decide) (by decide) (by decide)).1
      [("attributes__brand", JVal.vstr "Acme")] (by decide) (by decide)
  · exact (C3_theorem (baseEnv []) stC3w2 (mkRecord "A" "u" "")
      (by decide) (by decide) (by decide)).2
      bigHtml (Or.inl (by decide)) rfl (by rw [bigHtml_len]; decide) (by decide)

/-- C4 (counterexample): a record whose SKU is in the Resume Index but
whose url is blank still emits a row (the missing-url check runs before
the resume check), contradicting "emits no row". -/
theorem C4_counterexample :
    "A" ∈ (baseEnv ["A"]).done_skus ∧
    (processRecord (baseEnv ["A"]) emptyState (mkRecord "A" "" "")).1.row ≠ none := by
  decide

/-- C4 (amended): the Resume Index holds exactly the stripped non-blank
sku-column values of the selected prior artifact; the selected artifact
is a candidate (name different from the one being created) of maximal
modification time; and a record with non-empty (stripped) sku AND url
whose sku is in the index is skipped with no cache check, no fetch, no
model call and no row. -/
theorem C4_theorem :
    (∀ (cells : List (Option String)) (s : String),
        s ∈ load_done_skus_from_csv cells ↔
          ∃ c ∈ cells, pystrip (c.getD "") = s ∧ s ≠ "") ∧
    (∀ (files : List OutFile) (current : String) (f : OutFile),
        latest_output_csv files current = some f →
          f ∈ files ∧ f.name ≠ current ∧
            ∀ g ∈ files, g.name ≠ current → g.mtime ≤ f.mtime) ∧
    (∀ (env : Env) (st : RunState) (raw : InputRecord),
        (stripRecord raw).sku ≠ "" → (stripRecord raw).url ≠ "" →
        (stripRecord raw).sku ∈ env.done_skus →
        processRecord env st raw = (⟨none, false, false, false⟩, st)) := by
  refine ⟨?_, ?_, ?_⟩
  · intro cells s
    rw [load_done_skus_from_csv, List.mem_filterMap]
    constructor
    · rintro ⟨c, hc, he⟩
      by_cases hb : pystrip (c.getD "") = ""
      · rw [if_pos hb] at he; cases he
      · rw [if_neg hb] at he
        have hs := Option.some.inj he
        exact ⟨c, hc, hs, hs ▸ hb⟩
    · rintro ⟨c, hc, hps, hs⟩
      refine ⟨c, hc, ?_⟩
      rw [if_neg (by rw [hps]; exact hs), hps]
  · intro files current f h
    unfold latest_output_csv at h
    obtain ⟨hmem, hle, -⟩ := latestStep_fold _ none f h
    rcases hmem with hm | hm
    · cases hm
    · have hf := List.mem_filter.mp hm
      refine ⟨hf.1, by simpa using hf.2, ?_⟩
      intro g hg hgne
      exact hle g (List.mem_filter.mpr ⟨hg, by simpa using hgne⟩)
  · intro env st raw h1 h2 h3
    simp only [processRecord]
    rw [if_neg (fun hor => Or.elim hor h1 h2), if_pos h3]

/-- C4 (witness): a concrete prior artifact yields the stripped SKU;
the newest candidate artifact is selected; a concrete resume-skipped
record produces nothing. -/
theorem C4_witness :
    ("A" ∈ load_done_skus_from_csv [some " A ", some "  ", none] ↔
      ∃ c ∈ [some " A ", some "  ", none], pystrip (c.getD "") = "A" ∧ "A" ≠ "") ∧
    (outB ∈ [outA, outB] ∧ outB.name ≠ "laptop_cms_template_3.csv" ∧
      ∀ g ∈ [outA, outB], g.name ≠ "laptop_cms_template_3.csv" → g.mtime ≤ outB.mtime) ∧
    processRecord (baseEnv ["A"]) emptyState (mkRecord "A" "u" "")
      = (⟨none, false, false, false⟩, emptyState) := by
  refine ⟨C4_theorem.1 _ _, ?_, ?_⟩
  · exact C4_theorem.2.1 [outA, outB] "laptop_cms_template_3.csv" outB rfl
  · exact C4_theorem.2.2 (baseEnv ["A"]) emptyState (mkRecord "A" "u" "")
      (by decide) (by decide) (by decide)

/-- C5 (counterexample): two input records with the same sku (here both
with a blank url) produce two rows carrying the same sku value within
one run, contradicting at-most-once. -/
theorem C5_counterexample :
    (runPipeline (baseEnv []) emptyState [mkRecord "A" "" "", mkRecord "A" "" ""]).map
        (fun r => alookup r "sku")
      = [some (JVal.vstr "A"), some (JVal.vstr "A")] := by
  decide

/-- C5 (amended): when the input records have pairwise distinct
(stripped) sku values, the rows of one run carry pairwise distinct sku
values. -/
theorem C5_theorem :
    ∀ (env : Env) (st : RunState) (recs : List InputRecord),
      (recs.map (fun raw => (stripRecord raw).sku)).Nodup →
      ((runPipeline env st recs).map (fun r => alookup r "sku")).Nodup := by
  intro env st recs h
  have hsub := runPipeline_skus_sublist env st recs
  have h2 : (recs.map (fun raw => some (JVal.vstr (stripRecord raw).sku))).Nodup := by
    have hmm : recs.map (fun raw => some (JVal.vstr (stripRecord raw).sku))
        = (recs.map (fun raw => (stripRecord raw).sku)).map (fun s => some (JVal.vstr s)) := by
      rw [List.map_map]
      rfl
    rw [hmm]
    refine h.map ?_
    intro a b hab
    simpa using hab
  exact h2.sublist hsub

/-- C5 (witness): two distinct SKUs yield rows with distinct sku values. -/
theorem C5_witness :
    ((runPipeline (baseEnv []) emptyState [mkRecord "A" "" "", mkRecord "B" "" ""]).map
        (fun r => alookup r "sku")).Nodup :=
  C5_theorem (baseEnv []) emptyState [mkRecord "A" "" "", mkRecord "B" "" ""] (by decide)

/-- C6 (counterexample): the compactor keeps a three-cell row (using its
first two cells), which the claimed exactly-two-cells algorithm drops;
it also rejects an empty key, which the claimed algorithm (that only
restricts lengths) would keep. -/
theorem C6_counterexample :
    (html_to_compact_payload ⟨none, none, [["a", "b", "c"]], ""⟩ 18000).tables_text
        ≠ tables_text_claimed [["a", "b", "c"]] ∧
    (html_to_compact_payload ⟨none, none, [["", "b"]], ""⟩ 18000).tables_text
        ≠ tables_text_claimed [["", "b"]] := by
  decide

/-- C6 (amended): `tables_text` is built by taking, from every table row
with at least two cells, the first two (whitespace-collapsed) cells as
key and value, rejecting empty keys or values and keys longer than 70 or
values longer than 220 characters, deduplicating by exact line match,
capping at 140 lines, joining with newlines, and `NA` when no line
survives — for every document and every character budget. -/
theorem C6_theorem :
    ∀ (doc : HtmlDoc) (budget : Nat),
      (html_to_compact_payload doc budget).tables_text
        = tables_text_amended doc.tableRows := by
  intro doc budget
  simp only [html_to_compact_payload, tables_text_amended]
  have hfm : doc.tableRows.filterMap (fun cells =>
      match cells.map collapse_ws with
      | k :: v :: _ =>
        if k ≠ "" ∧ v ≠ "" ∧ k.length ≤ 70 ∧ v.length ≤ 220
        then some (k ++ ": " ++ v) else none
      | _ => none)
      = doc.tableRows.filterMap (fun cells =>
      match (cells.map collapse_ws).take 2 with
      | [k, v] =>
        if k ≠ "" ∧ v ≠ "" ∧ k.length ≤ 70 ∧ v.length ≤ 220
        then some (k ++ ": " ++ v) else none
      | _ => none) := by
    apply List.filterMap_congr
    intro cells _
    rcases hc : cells.map collapse_ws with _ | ⟨k, _ | ⟨v, rest⟩⟩
    · rfl
    · rfl
    · rfl
  rw [hfm]

/-- C7 (counterexample): a record with blank url but a non-blank ean
yields a row whose `attributes__lulu_ean` is the ean, not `NA` — the
NA row preserves all six override fields, not just sku/base_code. -/
theorem C7_counterexample :
    (processRecord (baseEnv []) emptyState (mkRecord "L1" "" "123")).1.row.bind
        (fun r => alookup r "attributes__lulu_ean") = some (JVal.vstr "123") ∧
    some (JVal.vstr "123") ≠ some (JVal.vstr NA) := by
  decide

/-- C7 (amended): a record with non-empty (stripped) sku and blank url
emits exactly the NA row — no cache check, no fetch, no model call, the
state unchanged (the loop continues) — and that NA row is `NA`
everywhere except sku, base_code and the six override fields, which
take the record's values (`NA` when blank). -/
theorem C7_theorem :
    ∀ (env : Env) (st : RunState) (raw : InputRecord),
      (stripRecord raw).sku ≠ "" → (stripRecord raw).url = "" →
      processRecord env st raw
          = (⟨some (make_na_row (stripRecord raw)), false, false, false⟩, st) ∧
      (∀ q ∈ HEADERS, q ∉ overrideKeys →
          alookup (make_na_row (stripRecord raw)) q = some (JVal.vstr NA)) ∧
      alookup (make_na_row (stripRecord raw)) "sku"
          = some (JVal.vstr (stripRecord raw).sku) ∧
      alookup (make_na_row (stripRecord raw)) "base_code"
          = some (JVal.vstr (stripRecord raw).sku) ∧
      alookup (make_na_row (stripRecord raw)) "attributes__lulu_ean"
          = some (JVal.vstr (orNA (pystrip (stripRecord raw).ean))) ∧
      alookup (make_na_row (stripRecord raw)) "attributes__shipping_weight"
          = some (JVal.vstr (orNA (pystrip (stripRecord raw).shipping_weight))) ∧
      alookup (make_na_row (stripRecord raw)) "attributes__color"
          = some (JVal.vstr (orNA (pystrip (stripRecord raw).color))) ∧
      alookup (make_na_row (stripRecord raw)) "attributes__lulu_product_type"
          = some (JVal.vstr (orNA (pystrip (stripRecord raw).product_type))) ∧
      alookup (make_na_row (stripRecord raw)) "attributes__version"
          = some (JVal.vstr (orNA (pystrip (stripRecord raw).mm43))) ∧
      alookup (make_na_row (stripRecord raw)) "attributes__other_information"
          = some (JVal.vstr (orNA (pystrip (stripRecord raw).category))) := by
  intro env st raw hsku hurl
  refine ⟨?_, na_row_plain _, na_row_sku _, na_row_base_code _, na_row_ean _,
    na_row_shipping_weight _, na_row_color _, na_row_product_type _,
    na_row_version _, na_row_other_info _⟩
  simp only [processRecord]
  rw [if_pos (Or.inr hurl)]

/-- C7 (witness): the blank-url record with ean "123" produces the NA
row with its ean, and an untouched attribute is `NA`. -/
theorem C7_witness :
    processRecord (baseEnv []) emptyState (mkRecord "L1" "" "123")
      = (⟨some (make_na_row (stripRecord (mkRecord "L1" "" "123"))), false, false, false⟩,
         emptyState) ∧
    alookup (make_na_row (stripRecord (mkRecord "L1" "" "123"))) "attributes__brand"
      = some (JVal.vstr NA) := by
  have h := C7_theorem (baseEnv []) emptyState (mkRecord "L1" "" "123") (by decide) (by decide)
  exact ⟨h.1, h.2.1 _ (by decide) (by decide)⟩

/-- C8: with five consecutive 429 responses and a success on the sixth
attempt (the ceiling `MAX_GROQ_RETRIES = 6`), `call_groq_with_retries`
returns the parsed object; and for every attempt `n ≥ 1` and jitters in
`[0.2, 0.8]`, the backoff delay of attempt `n + 1` strictly exceeds
that of attempt `n`. -/
theorem C8_theorem :
    (∀ (o : Obj),
      call_groq_with_retries
          (fun a => if a ≤ 5 then GroqResp.r429 else GroqResp.r200 (some o))
        = Except.ok o) ∧
    (∀ (n : Nat) (j1 j2 : ℚ), 1 ≤ n →
      1/5 ≤ j1 → j1 ≤ 4/5 → 1/5 ≤ j2 → j2 ≤ 4/5 →
      backoff_delay n j1 < backoff_delay (n + 1) j2) := by
  constructor
  · intro o
    rfl
  · intro n j1 j2 hn h1 h2 h3 h4
    unfold backoff_delay BACKOFF_BASE
    have hpow : ∀ k : Nat, (1 : ℚ) ≤ 2 ^ k := by
      intro k
      induction k with
      | zero => norm_num
      | succ m ih => rw [pow_succ]; nlinarith
    have hsub : n - 1 + 1 = n := Nat.succ_pred_eq_of_pos hn
    have hpows : (2 : ℚ) ^ (n + 1 - 1) = 2 ^ (n - 1) * 2 := by
      rw [Nat.add_sub_cancel]
      conv_lhs => rw [← hsub]
      rw [pow_succ]
    rw [hpows]
    have hp := hpow (n - 1)
    linarith

/-- C8 (witness): the concrete six-attempt run succeeds, and the delay
after attempt 2 exceeds the delay after attempt 1 even for the extreme
jitter pair. -/
theorem C8_witness :
    call_groq_with_retries
        (fun a => if a ≤ 5 then GroqResp.r429
                  else GroqResp.r200 (some [("attributes__brand", JVal.vstr "Acme")]))
      = Except.ok [("attributes__brand", JVal.vstr "Acme")] ∧
    backoff_delay 1 (4/5) < backoff_delay 2 (1/5) := by
  exact ⟨C8_theorem.1 _,
    C8_theorem.2 1 (4/5) (1/5) (by norm_num) (by norm_num) (by norm_num)
      (by norm_num) (by norm_num)⟩

/-- C9 (counterexample): the schema has 46 headers, not 45; and a model
value that is itself the literal string `"#NA"` is passed through, so
the output is `"#NA"` although the source value is present, non-null
and non-blank — refuting the "exactly when" direction. -/
theorem C9_counterexample :
    HEADERS.length ≠ 45 ∧
    alookup (normalize_to_headers [("sku", JVal.vstr NA)]) "sku" = some (JVal.vstr NA) ∧
    isNASource (alookup ([("sku", JVal.vstr NA)] : Obj) "sku") = false := by
  decide

/-- C9 (amended): `normalize_to_headers` returns exactly the 46 headers
in order (keys outside the schema are discarded); a field whose source
value is absent, `None`, or blank after stripping becomes `NA`; any
other source value is passed through unchanged (so the output value can
also be `"#NA"` when the model itself supplied that string). -/
theorem C9_theorem :
    ∀ (row : Obj),
      (normalize_to_headers row).map Prod.fst = HEADERS ∧
      (∀ q ∈ HEADERS, isNASource (alookup row q) = true →
          alookup (normalize_to_headers row) q = some (JVal.vstr NA)) ∧
      (∀ q ∈ HEADERS, isNASource (alookup row q) = false →
          alookup (normalize_to_headers row) q = alookup row q) := by
  intro row
  refine ⟨keys_normalize row, ?_, ?_⟩
  · intro q hq hna
    rw [alookup_normalize row q hq]
    rcases hv : alookup row q with _ | v
    · rfl
    · rw [hv] at hna
      cases v with
      | vstr s =>
        simp only [isNASource, decide_eq_true_eq] at hna
        simp [normVal, hna]
      | vnum n => simp [isNASource] at hna
      | vnull => rfl
  · intro q hq hno
    rw [alookup_normalize row q hq]
    rcases hv : alookup row q with _ | v
    · rw [hv] at hno
      simp [isNASource] at hno
    · rw [hv] at hno
      cases v with
      | vstr s =>
        simp only [isNASource, decide_eq_false_iff_not] at hno
        simp [normVal, hno]
      | vnum n => rfl
      | vnull => simp [isNASource] at hno

/-- C9 (witness): a `None` value becomes `NA`; a numeric value passes
through unchanged. -/
theorem C9_witness :
    alookup (normalize_to_headers [("attributes__brand", JVal.vnull)]) "attributes__brand"
        = some (JVal.vstr NA) ∧
    alookup (normalize_to_headers [("attributes__ram", JVal.vnum 16)]) "attributes__ram"
        = alookup ([("attributes__ram", JVal.vnum 16)] : Obj) "attributes__ram" := by
  exact ⟨(C9_theorem _).2.1 _ (by decide) (by decide),
    (C9_theorem _).2.2 _ (by decide) (by decide)⟩

/-- C10: an absent or unparsable extraction-cache file makes
`read_cached_groq_json` return `None`, and the record is processed
exactly as on a cache miss — it proceeds into the fetch-and-extract
stage, and the corrupted file neither raises nor aborts the run. -/
theorem C10_theorem :
    ∀ (env : Env) (st : RunState) (raw : InputRecord),
      (alookup st.groqCache (stripRecord raw).sku = none ∨
       alookup st.groqCache (stripRecord raw).sku = some none) →
      read_cached_groq_json st (stripRecord raw).sku = none ∧
      ((stripRecord raw).sku ≠ "" → (stripRecord raw).url ≠ "" →
        (stripRecord raw).sku ∉ env.done_skus →
        processRecord env st raw = fetchAndExtract env st (stripRecord raw)) := by
  intro env st raw hc
  have hread : read_cached_groq_json st (stripRecord raw).sku = none := by
    rcases hc with h | h <;> simp [read_cached_groq_json, h]
  refine ⟨hread, ?_⟩
  intro h1 h2 h3
  exact processRecord_cache_falsy env st raw h1 h2 h3 (Or.inl hread)

/-- C10 (witness): the concrete corrupt cache file for SKU `A` reads as
`None` and the record is processed as a cache miss. -/
theorem C10_witness :
    read_cached_groq_json corruptState "A" = none ∧
    processRecord (baseEnv []) corruptState (mkRecord "A" "u" "")
      = fetchAndExtract (baseEnv []) corruptState (stripRecord (mkRecord "A" "u" "")) := by
  have h := C10_theorem (baseEnv []) corruptState (mkRecord "A" "u" "") (Or.inr (by decide))
  exact ⟨h.1, h.2 (by decide) (by decide) (by decide)⟩
